import Mathlib

/-!
Shallow embedding of `src/jquery.positionsticky.js` (the modular variant,
lines 172-505 of the source artifact; the legacy inline variant at lines
1-172 is embedded separately where a claim refers to it).

DOM reads (`getBoundingClientRect`, `pageYOffset`, computed styles) are
modelled as a `Geometry` record of the values the code would read during
one pass; style writes on the sticky element and the placeholder are
modelled as fields of the instance state.  The `mutations` counter is
instrumentation: it counts applied scheme transitions (each `_make*` call
is one batch of style writes), so that "no style mutation happened" is
expressible as the counter being unchanged.
-/

set_option autoImplicit false

namespace PositionSticky

/-- Source constant POS_SCHEME_STATIC = 100. -/
def POS_SCHEME_STATIC : Nat := 100

/-- Source constant POS_SCHEME_FIXED = 200. -/
def POS_SCHEME_FIXED : Nat := 200

/-- Source constant POS_SCHEME_ABSOLUTE = 300. -/
def POS_SCHEME_ABSOLUTE : Nat := 300

/-- Values the CSS `position` property is set to by the code. -/
inductive CssPosition where
  | static
  | fixed
  | absolute
deriving DecidableEq

/-- Inline style of the sticky element: the four properties the code writes.
`none` models an unset / removed property (`style.x = null`). -/
structure Style where
  position : Option CssPosition
  top : Option Int
  bottom : Option Int
  left : Option Int
deriving DecidableEq

/-- Container collaborator: the box metrics `Container.create` measures
(border widths and paddings, resolved numeric pixel values). -/
structure Container where
  borderTopWidth : Int
  borderBottomWidth : Int
  paddingTop : Int
  paddingBottom : Int
deriving DecidableEq

/-- The values one evaluation pass would read from the DOM.
`offsetTopChain` is the list of `offsetTop` values along the element's
offset-parent chain (the element itself first), used only by the legacy
variant's `getElementDistanceFromDocumentTop`. -/
structure Geometry where
  pageYOffset : Int
  pageXOffset : Int
  containerRectBottom : Int
  stickyRectTop : Int
  stickyRectLeft : Int
  stickyRectHeight : Int
  stickyOffsetLeft : Int
  stickyMarginLeft : Int
  placeholderRectTop : Int
  offsetTopChain : List Int
deriving DecidableEq

/-- The PositionSticky instance state: the fields `_init` creates, plus the
observable style state of the sticky element and the placeholder, the
number of pending requestAnimationFrame callbacks (`scheduledFrames`), and
the style-mutation counter. -/
structure StickyState where
  posScheme : Nat
  isTicking : Bool
  threshold : Int
  options : Option Int
  container : Container
  offsetTop : Int
  offsetBottom : Int
  leftPositionWhenAbsolute : Int
  leftPositionWhenFixed : Int
  latestKnownScrollY : Int
  stickyBoundingBoxHeight : Int
  stickyStyle : Style
  placeholderDisplay : Bool
  scheduledFrames : Nat
  mutations : Nat
deriving DecidableEq

/-- Source `_isStatic` (lines 353-355). -/
def _isStatic (s : StickyState) : Bool :=
  s.posScheme == POS_SCHEME_STATIC

/-- Source `_isFixed` (lines 372-374). -/
def _isFixed (s : StickyState) : Bool :=
  s.posScheme == POS_SCHEME_FIXED

/-- Source `_isAbsolute` (lines 394-396). -/
def _isAbsolute (s : StickyState) : Bool :=
  s.posScheme == POS_SCHEME_ABSOLUTE

/-- Source `_makeStatic` (lines 361-365): set `position = 'static'` on the
element, hide the placeholder, record the scheme. -/
def _makeStatic (s : StickyState) : StickyState :=
  { s with
      stickyStyle := { s.stickyStyle with position := some CssPosition.static },
      placeholderDisplay := false,
      posScheme := POS_SCHEME_STATIC,
      mutations := s.mutations + 1 }

/-- Source `_makeFixed` (lines 380-387): clear `bottom`, set
`position = 'fixed'`, `top = offsetTop`, `left = leftPositionWhenFixed`,
show the placeholder, record the scheme. -/
def _makeFixed (s : StickyState) : StickyState :=
  { s with
      stickyStyle :=
        { position := some CssPosition.fixed,
          top := some s.offsetTop,
          bottom := none,
          left := some s.leftPositionWhenFixed },
      placeholderDisplay := true,
      posScheme := POS_SCHEME_FIXED,
      mutations := s.mutations + 1 }

/-- Source `_makeAbsolute` (lines 402-409): clear `top`, set
`position = 'absolute'`, `bottom = container.paddingBottom`,
`left = leftPositionWhenAbsolute`, show the placeholder, record the
scheme.  Note the source writes `this._container.paddingBottom`, not
`this.offsetBottom`. -/
def _makeAbsolute (s : StickyState) : StickyState :=
  { s with
      stickyStyle :=
        { position := some CssPosition.absolute,
          top := none,
          bottom := some s.container.paddingBottom,
          left := some s.leftPositionWhenAbsolute },
      placeholderDisplay := true,
      posScheme := POS_SCHEME_ABSOLUTE,
      mutations := s.mutations + 1 }

/-- Source `_isBelowThreshold` (lines 446-451): strict comparison of the
latest known scroll offset against the threshold. -/
def _isBelowThreshold (s : StickyState) : Bool :=
  decide (s.latestKnownScrollY < s.threshold)

/-- Source `_getAvailableSpaceInContainer` (lines 472-474): the container's
fresh bounding-rect bottom minus offsetBottom minus offsetTop. -/
def _getAvailableSpaceInContainer (s : StickyState) (g : Geometry) : Int :=
  g.containerRectBottom - s.offsetBottom - s.offsetTop

/-- Source `_canStickyFitInContainer` (lines 460-462): inclusive comparison
of the available space against the cached sticky height. -/
def _canStickyFitInContainer (s : StickyState) (g : Geometry) : Bool :=
  decide (_getAvailableSpaceInContainer s g ≥ s.stickyBoundingBoxHeight)

/-- Source `_getStickyDistanceFromDocumentTop` (lines 485-489): the latest
known scroll offset plus the viewport-relative top of the sticky element
(when static) or of the placeholder (otherwise).  No zero-scroll branch. -/
def _getStickyDistanceFromDocumentTop (s : StickyState) (g : Geometry) : Int :=
  let elementRectTop := if _isStatic s then g.stickyRectTop else g.placeholderRectTop
  s.latestKnownScrollY + elementRectTop

/-- Source `_calcThreshold` (lines 281-283). -/
def _calcThreshold (s : StickyState) (g : Geometry) : StickyState :=
  { s with threshold := _getStickyDistanceFromDocumentTop s g - s.offsetTop }

/-- Source `_setOffsetTop` (lines 255-261): a configured non-negative
`options.offsetTop` wins, else container top border plus top padding. -/
def _setOffsetTop (s : StickyState) : StickyState :=
  match s.options with
  | some v =>
      if 0 ≤ v then { s with offsetTop := v }
      else { s with offsetTop := s.container.borderTopWidth + s.container.paddingTop }
  | none => { s with offsetTop := s.container.borderTopWidth + s.container.paddingTop }

/-- Source `_setOffsetBottom` (lines 271-273). -/
def _setOffsetBottom (s : StickyState) : StickyState :=
  { s with offsetBottom := s.container.borderBottomWidth + s.container.paddingBottom }

/-- Source `_setLeftPositionWhenAbsolute` (lines 292-295). -/
def _setLeftPositionWhenAbsolute (s : StickyState) (g : Geometry) : StickyState :=
  { s with leftPositionWhenAbsolute := g.stickyOffsetLeft - g.stickyMarginLeft }

/-- Source `_setLeftPositionWhenFixed` (lines 305-308). -/
def _setLeftPositionWhenFixed (s : StickyState) (g : Geometry) : StickyState :=
  { s with leftPositionWhenFixed := g.pageXOffset + g.stickyRectLeft - g.stickyMarginLeft }

/-- Source `_createPlaceholder` (lines 317-319) delegates to
`Placeholder.create`, whose module is not part of the artifact.
Modelled from the spec: `Placeholder.create` allocates the proxy node
"hidden by default" (the legacy in-artifact `createPlaceholder`, lines
65-77, likewise sets `display: none`). -/
def _createPlaceholder (s : StickyState) : StickyState :=
  { s with placeholderDisplay := false }

/-- Source `_init` (lines 223-246): field initialisation followed by the
setter calls in source order.  `st0` is the element's pre-existing inline
style. -/
def _init (opts : Option Int) (c : Container) (st0 : Style) (g : Geometry) : StickyState :=
  let s0 : StickyState :=
    { posScheme := POS_SCHEME_STATIC,
      isTicking := false,
      threshold := 0,
      options := opts,
      container := c,
      offsetTop := 0,
      offsetBottom := 0,
      leftPositionWhenAbsolute := 0,
      leftPositionWhenFixed := 0,
      latestKnownScrollY := g.pageYOffset,
      stickyBoundingBoxHeight := g.stickyRectHeight,
      stickyStyle := st0,
      placeholderDisplay := false,
      scheduledFrames := 0,
      mutations := 0 }
  let s1 := _setOffsetTop s0
  let s2 := _setOffsetBottom s1
  let s3 := _calcThreshold s2 g
  let s4 := _setLeftPositionWhenAbsolute s3 g
  let s5 := _setLeftPositionWhenFixed s4 g
  _createPlaceholder s5

/-- Source `_onScroll` (lines 340-346): when no frame is pending, record
the current page offset, schedule one requestAnimationFrame callback and
set the ticking flag; otherwise do nothing. -/
def _onScroll (s : StickyState) (pageY : Int) : StickyState :=
  if s.isTicking then s
  else
    { s with
        latestKnownScrollY := pageY,
        scheduledFrames := s.scheduledFrames + 1,
        isTicking := true }

/-- Source `_update` (lines 420-436): clear the ticking flag, then pick the
scheme and transition only when it differs from the current one. -/
def _update (s : StickyState) (g : Geometry) : StickyState :=
  let s1 := { s with isTicking := false }
  if _isBelowThreshold s1 then
    if !(_isStatic s1) then _makeStatic s1 else s1
  else if _canStickyFitInContainer s1 g then
    if !(_isFixed s1) then _makeFixed s1 else s1
  else
    if !(_isAbsolute s1) then _makeAbsolute s1 else s1

/-- Source `refresh` (lines 497-501): `_calcThreshold`, then
`_sticky.refresh()` and `_placeholder.refresh()`.  The Sticky and
Placeholder modules are not part of the artifact; modelled from the spec:
their `refresh` re-measures the collaborator's own box, observable here as
the cached `stickyBoundingBoxHeight` being re-read. -/
def refresh (s : StickyState) (g : Geometry) : StickyState :=
  let s1 := _calcThreshold s g
  { s1 with stickyBoundingBoxHeight := g.stickyRectHeight }

/-- A burst of scroll notifications before the scheduled frame fires, in
arrival order; each carries the page offset current at that notification. -/
def processScrolls (s : StickyState) (ys : List Int) : StickyState :=
  ys.foldl _onScroll s

/-- One requestAnimationFrame callback firing: the pending registration is
consumed and `_update` runs once. -/
def fireFrame (s : StickyState) (g : Geometry) : StickyState :=
  _update { s with scheduledFrames := s.scheduledFrames - 1 } g

/-- Legacy variant `getElementDistanceFromDocumentTop` (lines 158-170 of
the artifact): at zero scroll, the viewport-relative top; otherwise the sum
of `offsetTop` over the element's offset-parent chain (do-while, so the
element itself is always included). -/
def getElementDistanceFromDocumentTop (latestKnownScrollY : Int) (rectTop : Int)
    (chain : List Int) : Int :=
  if latestKnownScrollY = 0 then rectTop
  else chain.foldl (fun a b => a + b) 0

/-- The distance formula as the claim words it (refinement comparison, not
from the source): scroll offset plus viewport-relative top when the scroll
offset is non-zero, offset-parent-chain sum when it is exactly zero. -/
def distanceFromDocumentTopClaim (scrollY : Int) (rectTop : Int)
    (chain : List Int) : Int :=
  if scrollY ≠ 0 then scrollY + rectTop
  else chain.foldl (fun a b => a + b) 0

/-! Concrete instances used by witnesses and counterexamples. -/

/-- An element with no pre-existing inline style. -/
def exampleStyle : Style :=
  { position := none, top := none, bottom := none, left := none }

/-- A container with border widths 1 (top) and 2 (bottom) and paddings 2
(top) and 3 (bottom), so the computed offsetTop is 3 and offsetBottom 5. -/
def exampleContainer : Container :=
  { borderTopWidth := 1, borderBottomWidth := 2, paddingTop := 2, paddingBottom := 3 }

/-- A geometry snapshot: unscrolled page, container rect bottom 300, sticky
element rect top 5 and height 100, placeholder rect top 8, offset-parent
chain [7, 4]. -/
def exampleGeometry : Geometry :=
  { pageYOffset := 0,
    pageXOffset := 0,
    containerRectBottom := 300,
    stickyRectTop := 5,
    stickyRectLeft := 0,
    stickyRectHeight := 100,
    stickyOffsetLeft := 0,
    stickyMarginLeft := 0,
    placeholderRectTop := 8,
    offsetTopChain := [7, 4] }

/-- An idle instance in the Static scheme: no pending frame, threshold 50,
scroll offset 0, sticky height 100. -/
def exampleIdleState : StickyState :=
  { posScheme := POS_SCHEME_STATIC,
    isTicking := false,
    threshold := 50,
    options := some 0,
    container := exampleContainer,
    offsetTop := 0,
    offsetBottom := 5,
    leftPositionWhenAbsolute := 0,
    leftPositionWhenFixed := 0,
    latestKnownScrollY := 0,
    stickyBoundingBoxHeight := 100,
    stickyStyle := exampleStyle,
    placeholderDisplay := false,
    scheduledFrames := 0,
    mutations := 0 }

/-- The same instance pinned in the Fixed scheme at scroll offset 60. -/
def exampleFixedState : StickyState :=
  { exampleIdleState with
      posScheme := POS_SCHEME_FIXED,
      latestKnownScrollY := 60,
      placeholderDisplay := true,
      stickyStyle :=
        { position := some CssPosition.fixed, top := some 0, bottom := none, left := some 0 },
      mutations := 1 }

/-! Helper lemmas. -/

/-- Clearing the ticking flag on a state whose ticking flag is already
clear is the identity. -/
lemma set_isTicking_self (t : StickyState) (ht : t.isTicking = false) :
    { t with isTicking := false } = t := by
  cases t
  simp_all

/-! Claim theorems. -/

/-- C6: every scheme transition clears the style state of the other two
schemes before applying its own: `_makeStatic` replaces fixed/absolute
positioning with `position: static`, `_makeFixed` clears the bottom offset
(and sets its own position, top and left), and `_makeAbsolute` clears the
top offset (and sets its own position, bottom and left). -/
theorem transitions_clear_other_schemes (s : StickyState) :
    (_makeStatic s).stickyStyle.position = some CssPosition.static
    ∧ (_makeFixed s).stickyStyle.bottom = none
    ∧ (_makeFixed s).stickyStyle.position = some CssPosition.fixed
    ∧ (_makeFixed s).stickyStyle.top = some s.offsetTop
    ∧ (_makeFixed s).stickyStyle.left = some s.leftPositionWhenFixed
    ∧ (_makeAbsolute s).stickyStyle.top = none
    ∧ (_makeAbsolute s).stickyStyle.position = some CssPosition.absolute
    ∧ (_makeAbsolute s).stickyStyle.left = some s.leftPositionWhenAbsolute :=
  ⟨rfl, rfl, rfl, rfl, rfl, rfl, rfl, rfl⟩

/-- C10: `refresh` changes only the threshold and the collaborators'
re-measured boxes; offsetTop, offsetBottom, both cached left positions, the
pending-evaluation flag, the latest known scroll offset and the container
metrics are all unchanged, so container border/padding changes are never
picked up by `refresh` alone. -/
theorem refresh_frame_effect (s : StickyState) (g : Geometry) :
    (refresh s g).offsetTop = s.offsetTop
    ∧ (refresh s g).offsetBottom = s.offsetBottom
    ∧ (refresh s g).leftPositionWhenFixed = s.leftPositionWhenFixed
    ∧ (refresh s g).leftPositionWhenAbsolute = s.leftPositionWhenAbsolute
    ∧ (refresh s g).isTicking = s.isTicking
    ∧ (refresh s g).latestKnownScrollY = s.latestKnownScrollY
    ∧ (refresh s g).container = s.container
    ∧ (refresh s g).posScheme = s.posScheme :=
  ⟨rfl, rfl, rfl, rfl, rfl, rfl, rfl, rfl⟩

/-- C4: the transition to Absolute clears the top offset, sets
`position: absolute`, sets left to the cached `leftPositionWhenAbsolute`
and shows the placeholder, but it sets the element's bottom style to
`container.paddingBottom` (3 here), not to `offsetBottom`
(= borderBottomWidth + paddingBottom = 5 here) as `_setOffsetBottom`'s own
documentation and the legacy variant prescribe. -/
theorem makeAbsolute_bottom_is_paddingBottom :
    (_init (some 0) exampleContainer exampleStyle exampleGeometry).offsetBottom = 5
    ∧ (_makeAbsolute (_init (some 0) exampleContainer exampleStyle exampleGeometry)).stickyStyle.bottom = some 3
    ∧ (_makeAbsolute (_init (some 0) exampleContainer exampleStyle exampleGeometry)).stickyStyle.top = none
    ∧ (_makeAbsolute (_init (some 0) exampleContainer exampleStyle exampleGeometry)).stickyStyle.position = some CssPosition.absolute
    ∧ (_makeAbsolute (_init (some 0) exampleContainer exampleStyle exampleGeometry)).placeholderDisplay = true
    ∧ some ((_init (some 0) exampleContainer exampleStyle exampleGeometry).offsetBottom)
        ≠ (_makeAbsolute (_init (some 0) exampleContainer exampleStyle exampleGeometry)).stickyStyle.bottom := by
  decide

/-- C2 counterexample: at scroll offset exactly zero, the claim's formula
takes the offset-parent-chain sum (11 for chain [7, 4]), but the modular
`_init` computes the threshold from scroll offset plus viewport-relative
top (0 + 5), and the legacy `getElementDistanceFromDocumentTop` likewise
returns the viewport-relative top (5) at zero scroll: both variants
disagree with the claim's branching. -/
theorem init_threshold_claim_counterexample :
    (_init (some 0) exampleContainer exampleStyle exampleGeometry).threshold = 5
    ∧ (_init (some 0) exampleContainer exampleStyle exampleGeometry).offsetTop = 0
    ∧ distanceFromDocumentTopClaim exampleGeometry.pageYOffset exampleGeometry.stickyRectTop
        exampleGeometry.offsetTopChain - 0 = 11
    ∧ getElementDistanceFromDocumentTop exampleGeometry.pageYOffset exampleGeometry.stickyRectTop
        exampleGeometry.offsetTopChain = 5
    ∧ (_init (some 0) exampleContainer exampleStyle exampleGeometry).threshold
        ≠ distanceFromDocumentTopClaim exampleGeometry.pageYOffset exampleGeometry.stickyRectTop
            exampleGeometry.offsetTopChain
          - (_init (some 0) exampleContainer exampleStyle exampleGeometry).offsetTop := by
  decide

/-- C2 amended: the threshold is always the latest known scroll offset plus
the measured element's viewport-relative top, minus offsetTop — with no
zero-scroll special case and no offset-parent-chain walk: at initialization
the measured element is the sticky element itself, and on refresh it is the
sticky element when Static and the placeholder otherwise. -/
theorem init_threshold_formula :
    (∀ opts c st0 g, (_init opts c st0 g).threshold =
        g.pageYOffset + g.stickyRectTop - (_init opts c st0 g).offsetTop)
    ∧ (∀ s g, (refresh s g).threshold =
        s.latestKnownScrollY
          + (if s.posScheme = POS_SCHEME_STATIC then g.stickyRectTop else g.placeholderRectTop)
          - s.offsetTop) := by
  constructor
  · intro opts c st0 g
    unfold _init _setOffsetTop _setOffsetBottom _calcThreshold _getStickyDistanceFromDocumentTop
      _isStatic _setLeftPositionWhenAbsolute _setLeftPositionWhenFixed _createPlaceholder
    cases opts with
    | none => simp
    | some v =>
        by_cases h : 0 ≤ v <;> simp [h]
  · intro s g
    unfold refresh _calcThreshold _getStickyDistanceFromDocumentTop _isStatic
    by_cases h : s.posScheme = POS_SCHEME_STATIC <;> simp [h]

/-- C1: each evaluation picks Static when the latest known scroll offset is
strictly below the threshold, otherwise Fixed when the container's
available space (container rect bottom minus offsetBottom minus offsetTop)
is at least the element's height, otherwise Absolute; and the evaluation
mutates styles (one transition batch) exactly when the chosen scheme
differs from the current one — otherwise it only clears the ticking flag. -/
theorem update_scheme_selection (s : StickyState) (g : Geometry) :
    (_update s g).posScheme =
      (if s.latestKnownScrollY < s.threshold then POS_SCHEME_STATIC
       else if g.containerRectBottom - s.offsetBottom - s.offsetTop ≥ s.stickyBoundingBoxHeight
       then POS_SCHEME_FIXED
       else POS_SCHEME_ABSOLUTE)
    ∧ (_update s g).mutations =
        (if (_update s g).posScheme = s.posScheme then s.mutations else s.mutations + 1)
    ∧ ((_update s g).posScheme = s.posScheme → _update s g = { s with isTicking := false }) := by
  unfold _update _isBelowThreshold _canStickyFitInContainer _getAvailableSpaceInContainer
    _isStatic _isFixed _isAbsolute _makeStatic _makeFixed _makeAbsolute
  simp only [POS_SCHEME_STATIC, POS_SCHEME_FIXED, POS_SCHEME_ABSOLUTE, ge_iff_le]
  by_cases h1 : s.latestKnownScrollY < s.threshold
  · by_cases h3 : s.posScheme = 100
    · simp [h1, h3]
    · simp [h1, h3, Ne.symm h3]
  · by_cases h2 : s.stickyBoundingBoxHeight ≤ g.containerRectBottom - s.offsetBottom - s.offsetTop
    · by_cases h3 : s.posScheme = 200
      · simp [h1, h2, h3]
      · simp [h1, h2, h3, Ne.symm h3]
    · by_cases h3 : s.posScheme = 300
      · simp [h1, h2, h3]
      · simp [h1, h2, h3, Ne.symm h3]

/-- C1 witness: on the idle Static example below threshold the evaluation
keeps Static and performs no style mutation. -/
theorem update_scheme_selection_witness :
    _update exampleIdleState exampleGeometry = { exampleIdleState with isTicking := false }
    ∧ (_update exampleIdleState exampleGeometry).posScheme = POS_SCHEME_STATIC :=
  ⟨(update_scheme_selection exampleIdleState exampleGeometry).2.2 (by decide), by decide⟩

/-- C5: with threshold T, a scroll offset of T - 1 yields Static (strict
comparison), an offset of exactly T yields a non-Static scheme, and at
exactly T with the available space exactly equal to the element's height
the scheme is Fixed, not Absolute (inclusive fit comparison). -/
theorem update_boundaries (s : StickyState) (g : Geometry) :
    (_update { s with latestKnownScrollY := s.threshold - 1 } g).posScheme = POS_SCHEME_STATIC
    ∧ (_update { s with latestKnownScrollY := s.threshold } g).posScheme ≠ POS_SCHEME_STATIC
    ∧ (g.containerRectBottom - s.offsetBottom - s.offsetTop = s.stickyBoundingBoxHeight →
        (_update { s with latestKnownScrollY := s.threshold } g).posScheme = POS_SCHEME_FIXED) := by
  unfold _update _isBelowThreshold _canStickyFitInContainer _getAvailableSpaceInContainer
    _isStatic _isFixed _isAbsolute _makeStatic _makeFixed _makeAbsolute
  simp only [POS_SCHEME_STATIC, POS_SCHEME_FIXED, POS_SCHEME_ABSOLUTE, ge_iff_le]
  refine ⟨?_, ?_, ?_⟩
  · have h1 : s.threshold - 1 < s.threshold := by omega
    by_cases h3 : s.posScheme = 100 <;> simp [h1, h3]
  · have h1 : ¬ (s.threshold < s.threshold) := lt_irrefl _
    by_cases h2 : s.stickyBoundingBoxHeight ≤ g.containerRectBottom - s.offsetBottom - s.offsetTop
    · by_cases h3 : s.posScheme = 200 <;> simp [h1, h2, h3]
    · by_cases h3 : s.posScheme = 300 <;> simp [h1, h2, h3]
  · intro hfit
    have h1 : ¬ (s.threshold < s.threshold) := lt_irrefl _
    have h2 : s.stickyBoundingBoxHeight ≤ g.containerRectBottom - s.offsetBottom - s.offsetTop :=
      le_of_eq hfit.symm
    by_cases h3 : s.posScheme = 200 <;> simp [h1, h2, h3]

/-- C5 witness: on the idle example with threshold 50 and an exact fit
(container rect bottom 105, offsets 5 and 0, height 100), scroll 49 keeps
Static, scroll 50 leaves Static, and the exact fit yields Fixed. -/
theorem update_boundaries_witness :
    (_update { exampleIdleState with latestKnownScrollY := exampleIdleState.threshold - 1 }
        { exampleGeometry with containerRectBottom := 105 }).posScheme = POS_SCHEME_STATIC
    ∧ ({ exampleGeometry with containerRectBottom := 105 }).containerRectBottom
          - exampleIdleState.offsetBottom - exampleIdleState.offsetTop
        = exampleIdleState.stickyBoundingBoxHeight
    ∧ (_update { exampleIdleState with latestKnownScrollY := exampleIdleState.threshold }
        { exampleGeometry with containerRectBottom := 105 }).posScheme = POS_SCHEME_FIXED :=
  ⟨(update_boundaries exampleIdleState { exampleGeometry with containerRectBottom := 105 }).1,
   by decide,
   (update_boundaries exampleIdleState { exampleGeometry with containerRectBottom := 105 }).2.2
     (by decide)⟩

/-- C7: evaluation is idempotent — a second `_update` with the same scroll
offset and the same geometry returns the state of the first unchanged
(same styles, same placeholder visibility, same mutation count). -/
theorem update_idempotent (s : StickyState) (g : Geometry) :
    _update (_update s g) g = _update s g := by
  unfold _update _isBelowThreshold _canStickyFitInContainer _getAvailableSpaceInContainer
    _isStatic _isFixed _isAbsolute _makeStatic _makeFixed _makeAbsolute
  simp only [POS_SCHEME_STATIC, POS_SCHEME_FIXED, POS_SCHEME_ABSOLUTE, ge_iff_le]
  by_cases h1 : s.latestKnownScrollY < s.threshold
  · by_cases h3 : s.posScheme = 100 <;> simp [h1, h3]
  · by_cases h2 : s.stickyBoundingBoxHeight ≤ g.containerRectBottom - s.offsetBottom - s.offsetTop
    · by_cases h3 : s.posScheme = 200 <;> simp [h1, h2, h3]
    · by_cases h3 : s.posScheme = 300 <;> simp [h1, h2, h3]

/-- A scroll notification arriving while a frame is already pending does
nothing: neither the recorded offset nor the pending registration changes. -/
lemma processScrolls_ticking (s : StickyState) (hs : s.isTicking = true) (ys : List Int) :
    processScrolls s ys = s := by
  induction ys with
  | nil => rfl
  | cons y ys ih =>
      have h1 : _onScroll s y = s := by simp [_onScroll, hs]
      calc processScrolls s (y :: ys) = processScrolls (_onScroll s y) ys := rfl
        _ = processScrolls s ys := by rw [h1]
        _ = s := ih

/-- C3 counterexample: from an idle state, the burst [3, 5] of scroll
notifications before the frame fires schedules exactly one evaluation, but
the recorded scroll offset is 3 — the one current at the first
notification — not 5, the one current at the most recent notification. -/
theorem debounce_claim_counterexample :
    (processScrolls exampleIdleState [3, 5]).scheduledFrames = 1
    ∧ (processScrolls exampleIdleState [3, 5]).latestKnownScrollY = 3
    ∧ (processScrolls exampleIdleState [3, 5]).latestKnownScrollY ≠ 5 := by
  decide

/-- C3 amended: for every burst of N ≥ 1 scroll notifications arriving
while no frame is pending, exactly one frame evaluation is scheduled, and
the scroll offset it will use is the one current at the first notification
of the burst; the later notifications of the burst change nothing. -/
theorem debounce_uses_first_offset (s : StickyState) (hs : s.isTicking = false)
    (y : Int) (ys : List Int) :
    processScrolls s (y :: ys) =
      { s with
          latestKnownScrollY := y,
          scheduledFrames := s.scheduledFrames + 1,
          isTicking := true } := by
  have h1 : _onScroll s y =
      { s with
          latestKnownScrollY := y,
          scheduledFrames := s.scheduledFrames + 1,
          isTicking := true } := by
    simp [_onScroll, hs]
  calc processScrolls s (y :: ys) = processScrolls (_onScroll s y) ys := rfl
    _ = _onScroll s y := by
        rw [h1]
        exact processScrolls_ticking _ rfl ys
    _ = _ := h1

/-- C3 witness: the amended statement evaluated on the idle example and the
burst [3, 5]. -/
theorem debounce_uses_first_offset_witness :
    processScrolls exampleIdleState [3, 5] =
      { exampleIdleState with
          latestKnownScrollY := 3,
          scheduledFrames := exampleIdleState.scheduledFrames + 1,
          isTicking := true } :=
  debounce_uses_first_offset exampleIdleState rfl 3 [5]

/-- The C8 invariant: the scheme is exactly one of the three scheme
constants, and the placeholder is shown exactly when the scheme is not
Static. -/
abbrev schemeInvariant (s : StickyState) : Prop :=
  (s.posScheme = POS_SCHEME_STATIC ∨ s.posScheme = POS_SCHEME_FIXED
      ∨ s.posScheme = POS_SCHEME_ABSOLUTE)
  ∧ (s.placeholderDisplay = true ↔ s.posScheme ≠ POS_SCHEME_STATIC)

/-- C8: initialization establishes the invariant (one of the three schemes,
placeholder visibility the negation of Static) and every operation —
evaluation, scroll notification, refresh — preserves it. -/
theorem scheme_invariant_preserved :
    (∀ opts c st0 g, schemeInvariant (_init opts c st0 g))
    ∧ (∀ s g, schemeInvariant s → schemeInvariant (_update s g))
    ∧ (∀ s y, schemeInvariant s → schemeInvariant (_onScroll s y))
    ∧ (∀ s g, schemeInvariant s → schemeInvariant (refresh s g)) := by
  refine ⟨?_, ?_, ?_, ?_⟩
  · intro opts c st0 g
    unfold _init _setOffsetTop _setOffsetBottom _calcThreshold _getStickyDistanceFromDocumentTop
      _isStatic _setLeftPositionWhenAbsolute _setLeftPositionWhenFixed _createPlaceholder
    cases opts with
    | none => simp [schemeInvariant]
    | some v => by_cases h : 0 ≤ v <;> simp [h, schemeInvariant]
  · intro s g hinv
    unfold _update _isBelowThreshold _canStickyFitInContainer _getAvailableSpaceInContainer
      _isStatic _isFixed _isAbsolute _makeStatic _makeFixed _makeAbsolute
    simp only [schemeInvariant, POS_SCHEME_STATIC, POS_SCHEME_FIXED, POS_SCHEME_ABSOLUTE]
      at hinv ⊢
    obtain ⟨hmem, hdisp⟩ := hinv
    by_cases h1 : s.latestKnownScrollY < s.threshold
    · by_cases h3 : s.posScheme = 100
      · have hd : s.placeholderDisplay = false := by simpa [h3] using hdisp
        simp [h1, h3, hd]
      · simp [h1, h3]
    · by_cases h2 : s.stickyBoundingBoxHeight ≤ g.containerRectBottom - s.offsetBottom - s.offsetTop
      · by_cases h3 : s.posScheme = 200
        · have hd : s.placeholderDisplay = true := by simpa [h3] using hdisp
          simp [h1, h2, h3, hd]
        · simp [h1, h2, h3]
      · by_cases h3 : s.posScheme = 300
        · have hd : s.placeholderDisplay = true := by simpa [h3] using hdisp
          simp [h1, h2, h3, hd]
        · simp [h1, h2, h3]
  · intro s y hinv
    unfold _onScroll
    by_cases h : s.isTicking <;> simp_all [schemeInvariant]
  · intro s g hinv
    unfold refresh _calcThreshold _getStickyDistanceFromDocumentTop _isStatic
    simp_all [schemeInvariant]

/-- C8 witness: the invariant holds on the Fixed example and is preserved
by an evaluation from it. -/
theorem scheme_invariant_preserved_witness :
    schemeInvariant (_update exampleFixedState exampleGeometry) :=
  scheme_invariant_preserved.2.1 exampleFixedState exampleGeometry (by decide)

/-- C9: when the current scheme is not Static, `refresh` recomputes the
threshold from the placeholder's current viewport-relative top (not the
repositioned element's), and it changes neither the scheme nor any style:
the new threshold only matters to the next scroll-driven evaluation. -/
theorem refresh_uses_placeholder_when_not_static (s : StickyState) (g : Geometry)
    (h : s.posScheme ≠ POS_SCHEME_STATIC) :
    (refresh s g).threshold = s.latestKnownScrollY + g.placeholderRectTop - s.offsetTop
    ∧ (refresh s g).posScheme = s.posScheme
    ∧ (refresh s g).stickyStyle = s.stickyStyle
    ∧ (refresh s g).placeholderDisplay = s.placeholderDisplay
    ∧ (refresh s g).mutations = s.mutations := by
  unfold refresh _calcThreshold _getStickyDistanceFromDocumentTop _isStatic
  simp only [POS_SCHEME_STATIC] at h ⊢
  simp [h]

/-- C9 witness: refreshing the Fixed example recomputes the threshold from
the placeholder rect top (60 + 8 - 0) and keeps the scheme Fixed. -/
theorem refresh_uses_placeholder_witness :
    (refresh exampleFixedState exampleGeometry).threshold
        = exampleFixedState.latestKnownScrollY + exampleGeometry.placeholderRectTop
          - exampleFixedState.offsetTop
    ∧ (refresh exampleFixedState exampleGeometry).posScheme = exampleFixedState.posScheme :=
  ⟨(refresh_uses_placeholder_when_not_static exampleFixedState exampleGeometry (by decide)).1,
   (refresh_uses_placeholder_when_not_static exampleFixedState exampleGeometry (by decide)).2.1⟩

end PositionSticky
